import Mathlib

/-!
# Vitesse PHY driver (drivers/net/phy/vitesse.c)

A shallow embedding of the register-level logic of the Vitesse PHY driver.

* The management bus is an oracle: the value a read or a write returns is a
  function of the operations issued before it.  Quantifying over the oracle
  covers every deterministic bus behaviour (any write may fail, with any code,
  at any point).
* Every driver routine threads the trace of operations issued so far and
  returns the C return value together with the extended trace.
* C `int` values are mathematical integers; the only arithmetic the driver
  performs on them is comparison with zero and bitwise and/or, neither of
  which can overflow.
-/

namespace Vitesse

/-! ## Register map and identifiers (the defines of vitesse.c) -/

def MII_VSC82X4_EXT_PAGE_16E : Nat := 0x10
def MII_VSC82X4_EXT_PAGE_17E : Nat := 0x11
def MII_VSC82X4_EXT_PAGE_18E : Nat := 0x12

def MII_VSC8244_IMASK : Nat := 0x19
def MII_VSC8244_IMASK_MASK : Nat := 0xf000
def MII_VSC8221_IMASK_MASK : Nat := 0xa000

def MII_VSC8244_ISTAT : Nat := 0x1a

def MII_VSC82X4_EXT_PAGE_ACCESS : Nat := 0x1f
def MII_VSC8574_EXT_MAIN : Nat := 0x0000
def MII_VSC8574_EXT_1 : Nat := 0x0001
def MII_VSC8574_EXT_2 : Nat := 0x0002
def MII_VSC8574_EXT_3 : Nat := 0x0003
def MII_VSC8574_EXT_GENERAL : Nat := 0x0010
def MII_VSC8574_EXT_TEST : Nat := 0x2A30
def MII_VSC8574_EXT_TR : Nat := 0x52B5

def PHY_ID_VSC8234 : Nat := 0x000fc620
def PHY_ID_VSC8244 : Nat := 0x000fc6c0
def PHY_ID_VSC8514 : Nat := 0x00070670
def PHY_ID_VSC8574 : Nat := 0x000704a0
def PHY_ID_VSC8662 : Nat := 0x00070660
def PHY_ID_VSC8221 : Nat := 0x000fc550
def PHY_ID_VSC8211 : Nat := 0x000fc4b0

def PHY_ID_VSC8574_REV_A : Nat := 0x000704a0
def PHY_ID_VSC8574_REV_B : Nat := 0x000704a1
def PHY_ID_VSC8574_MASK : Nat := 0x000ffff1

/-! ## Constants of the kernel headers the driver compares against -/

/-- Modelled from the spec: the value of `phydev->interrupts` that stands for
"interrupts disabled" (the header linux/phy.h is not among the sources). -/
def PHY_INTERRUPT_DISABLED : Nat := 0x0

/-- Modelled from the spec: the value of `phydev->interrupts` that stands for
"interrupts enabled" (the header linux/phy.h is not among the sources); the
driver only tests the field for equality with it. -/
def PHY_INTERRUPT_ENABLED : Nat := 0x80000000

/-- Modelled from the spec: the value of `phydev->autoneg` for forced mode
(the header linux/ethtool.h is not among the sources). -/
def AUTONEG_DISABLE : Nat := 0x00

/-- Modelled from the spec: the value of `phydev->autoneg` for
"auto-negotiation enabled" (the header linux/ethtool.h is not among the
sources); the driver only tests the field for equality with it. -/
def AUTONEG_ENABLE : Nat := 0x01

/-- Modelled from the spec: 10 Mb/s (linux/ethtool.h is not among the sources). -/
def SPEED_10 : Int := 10

/-- Modelled from the spec: 100 Mb/s, the highest speed at which the crossover
sequence applies (linux/ethtool.h is not among the sources). -/
def SPEED_100 : Int := 100

/-- Modelled from the spec: 1000 Mb/s (linux/ethtool.h is not among the sources). -/
def SPEED_1000 : Int := 1000

/-! ## Device and bus -/

/-- The fields of `struct phy_device` the driver and the fix-up dispatch read;
`drv_phy_id` is `phydev->drv->phy_id`, the identifier of the bound driver
entry, `phy_id` the identifier read from the device. -/
structure PhyDevice where
  phy_id : Nat
  drv_phy_id : Nat
  interrupts : Nat
  autoneg : Nat
  speed : Int
  duplex : Int
  deriving DecidableEq, Repr

/-- One event on the management bus, or a busy-wait delay between two. -/
inductive BusOp where
  | read (reg : Nat)
  | write (reg : Nat) (val : Nat)
  | mdelay (ms : Nat)
  deriving DecidableEq, Repr

abbrev Trace := List BusOp

/-- A bus behaviour: what `phy_read` / `phy_write` return, given everything
issued so far.  A negative value is an errno. -/
structure Bus where
  read : Trace → Nat → Int
  write : Trace → Nat → Nat → Int

/-- The call `phy_read(phydev, reg)`. -/
def phy_read (bus : Bus) (t : Trace) (reg : Nat) : Int × Trace :=
  (bus.read t reg, t ++ [BusOp.read reg])

/-- The call `phy_write(phydev, reg, val)`. -/
def phy_write (bus : Bus) (t : Trace) (reg val : Nat) : Int × Trace :=
  (bus.write t reg val, t ++ [BusOp.write reg val])

/-- The call `mdelay(ms)`: no bus traffic, only recorded. -/
def mdelay (t : Trace) (ms : Nat) : Trace :=
  t ++ [BusOp.mdelay ms]

/-- A bus on which every write succeeds and every read returns `v`. -/
def constBus (v : Int) : Bus where
  read := fun _ _ => v
  write := fun _ _ _ => 0

/-- The always-succeeding bus stub: writes return 0, reads return 0. -/
def okBus : Bus := constBus 0

/-- The writes recorded in a trace, as (register, value) pairs, in order. -/
def writesOf : Trace → List (Nat × Nat)
  | [] => []
  | BusOp.write r v :: t => (r, v) :: writesOf t
  | _ :: t => writesOf t

/-! ## Interrupt handling -/

/-- Embedding of `vsc824x_ack_interrupt`. -/
def vsc824x_ack_interrupt (phydev : PhyDevice) (bus : Bus) (t : Trace) : Int × Trace :=
  let err : Int := 0
  let (err, t) :=
    if phydev.interrupts = PHY_INTERRUPT_ENABLED then
      phy_read bus t MII_VSC8244_ISTAT
    else (err, t)
  (if err < 0 then err else 0, t)

/-- Embedding of `vsc82xx_config_intr`. -/
def vsc82xx_config_intr (phydev : PhyDevice) (bus : Bus) (t : Trace) : Int × Trace :=
  if phydev.interrupts = PHY_INTERRUPT_ENABLED then
    phy_write bus t MII_VSC8244_IMASK
      (if phydev.drv_phy_id = PHY_ID_VSC8234 ∨
          phydev.drv_phy_id = PHY_ID_VSC8244 ∨
          phydev.drv_phy_id = PHY_ID_VSC8514 ∨
          phydev.drv_phy_id = PHY_ID_VSC8574 then
        MII_VSC8244_IMASK_MASK
      else
        MII_VSC8221_IMASK_MASK)
  else
    let (err, t) := phy_read bus t MII_VSC8244_ISTAT
    if err < 0 then
      (err, t)
    else
      phy_write bus t MII_VSC8244_IMASK 0

/-! ## Forced-mode auto MDI/MDI-X -/

/-- Embedding of `vsc82x4_config_autocross_enable`. -/
def vsc82x4_config_autocross_enable (phydev : PhyDevice) (bus : Bus) (t : Trace) :
    Int × Trace :=
  if phydev.autoneg = AUTONEG_ENABLE ∨ phydev.speed > SPEED_100 then
    (0, t)
  else
    let (ret, t) := phy_write bus t MII_VSC82X4_EXT_PAGE_ACCESS 0x52b5
    let (ret, t) :=
      if ret ≥ 0 then phy_write bus t MII_VSC82X4_EXT_PAGE_18E 0x0012 else (ret, t)
    let (ret, t) :=
      if ret ≥ 0 then phy_write bus t MII_VSC82X4_EXT_PAGE_17E 0x2803 else (ret, t)
    let (ret, t) :=
      if ret ≥ 0 then phy_write bus t MII_VSC82X4_EXT_PAGE_16E 0x87fa else (ret, t)
    if ret ≥ 0 then
      phy_write bus t MII_VSC82X4_EXT_PAGE_ACCESS 0x0000
    else
      (ret, (phy_write bus t MII_VSC82X4_EXT_PAGE_ACCESS 0x0000).2)

/-- A generic PHY-library routine (`genphy_setup_forced`, `genphy_config_aneg`):
it lives outside this driver, so it is a parameter.  It may use the bus and may
update the device structure. -/
abbrev GenphyOp := PhyDevice → Bus → Trace → Int × Trace × PhyDevice

/-- Embedding of `vsc82x4_config_aneg`, over the two library routines it calls. -/
def vsc82x4_config_aneg (genphy_setup_forced genphy_config_aneg : GenphyOp)
    (phydev : PhyDevice) (bus : Bus) (t : Trace) : Int × Trace × PhyDevice :=
  if phydev.autoneg ≠ AUTONEG_ENABLE ∧ phydev.speed ≤ SPEED_100 then
    let (ret, t, phydev) := genphy_setup_forced phydev bus t
    if ret < 0 then
      (ret, t, phydev)
    else
      let (ret, t) := vsc82x4_config_autocross_enable phydev bus t
      (ret, t, phydev)
  else
    genphy_config_aneg phydev bus t

/-! ## VSC8574 start-up configuration -/

/-- The statement `err |= phy_write(phydev, reg, val);` on the pair
(accumulated `err`, trace). -/
def orWrite (bus : Bus) (s : Int × Trace) (reg val : Nat) : Int × Trace :=
  let (r, t) := phy_write bus s.2 reg val
  (Int.lor s.1 r, t)

/-- The loop `while(1){ if(phy_read(phydev, reg) & 0x8000) mdelay(1); else break; }`
of `vsc8574_startup_cfg`, run for at most `fuel` iterations; `none` when the
loop is still running after `fuel` iterations. -/
def startup_wait_not_busy (bus : Bus) (reg : Nat) : Nat → Trace → Option Trace
  | 0, _ => none
  | fuel + 1, t =>
    let (v, t) := phy_read bus t reg
    if Int.land v 0x8000 ≠ 0 then
      startup_wait_not_busy bus reg fuel (mdelay t 1)
    else
      some t

/-- The loop `while(1){ mdelay(40); if(phy_read(phydev, 18) == 0x00F0) break; }`
of `vsc8574_startup_cfg`, run for at most `fuel` iterations. -/
def startup_wait_command (bus : Bus) : Nat → Trace → Option Trace
  | 0, _ => none
  | fuel + 1, t =>
    let t := mdelay t 40
    let (v, t) := phy_read bus t 18
    if v = 0x00F0 then
      some t
    else
      startup_wait_command bus fuel t

/-- Embedding of `vsc8574_startup_cfg`.  The C function has three `while(1)`
loops without a bound; here each may run for at most `fuel` iterations and the
result is `none` when one of them has not left by then. -/
def vsc8574_startup_cfg (fuel : Nat) (bus : Bus) (t : Trace) : Option (Int × Trace) :=
  let s : Int × Trace := (0, t)
  let s := orWrite bus s MII_VSC82X4_EXT_PAGE_ACCESS MII_VSC8574_EXT_GENERAL
  match startup_wait_not_busy bus 18 fuel s.2 with
  | none => none
  | some t =>
    let s := orWrite bus (s.1, t) 18 0x80F0
    match startup_wait_command bus fuel s.2 with
    | none => none
    | some t =>
      let s := orWrite bus (s.1, t) MII_VSC82X4_EXT_PAGE_ACCESS MII_VSC8574_EXT_MAIN
      let s := orWrite bus s 0 0x9140
      match startup_wait_not_busy bus 0 fuel s.2 with
      | none => none
      | some t =>
        let s := orWrite bus (s.1, t) MII_VSC82X4_EXT_PAGE_ACCESS MII_VSC8574_EXT_3
        let s := orWrite bus s 16 0x0180
        let s := orWrite bus s MII_VSC82X4_EXT_PAGE_ACCESS MII_VSC8574_EXT_MAIN
        let s := orWrite bus s 0 0x1140
        some s

/-! ## Revision fix-up sequences -/

/-- Embedding of `vsc8574_led_mode`. -/
def vsc8574_led_mode (bus : Bus) (t : Trace) : Int × Trace :=
  let s : Int × Trace := (0, t)
  let s := orWrite bus s MII_VSC82X4_EXT_PAGE_ACCESS MII_VSC8574_EXT_MAIN
  let s := orWrite bus s 29 0x800a
  let s := orWrite bus s 30 0x040f
  s

/-- Embedding of `vsc8574_reva_tune`. -/
def vsc8574_reva_tune (bus : Bus) (t : Trace) : Int × Trace :=
  let s : Int × Trace := (0, t)
  let s := orWrite bus s MII_VSC82X4_EXT_PAGE_ACCESS MII_VSC8574_EXT_MAIN
  let s := orWrite bus s 22 0x3201
  let s := orWrite bus s 24 0x2040
  let s := orWrite bus s MII_VSC82X4_EXT_PAGE_ACCESS MII_VSC8574_EXT_2
  let s := orWrite bus s 16 0x02f0
  let s := orWrite bus s MII_VSC82X4_EXT_PAGE_ACCESS MII_VSC8574_EXT_TEST
  let s := orWrite bus s 20 0x0140
  let s := orWrite bus s 9 0x180c
  let s := orWrite bus s 8 0x8012
  let s := orWrite bus s MII_VSC82X4_EXT_PAGE_ACCESS MII_VSC8574_EXT_TR
  let s := orWrite bus s 18 0x0000
  let s := orWrite bus s 17 0x0011
  let s := orWrite bus s 16 0x96a0
  let s := orWrite bus s 18 0x0000
  let s := orWrite bus s 17 0x7100
  let s := orWrite bus s 16 0x96a2
  let s := orWrite bus s 18 0x00d2
  let s := orWrite bus s 17 0x547f
  let s := orWrite bus s 16 0x968c
  let s := orWrite bus s 18 0x00f0
  let s := orWrite bus s 17 0xf00d
  let s := orWrite bus s 16 0x96b0
  let s := orWrite bus s 18 0x0000
  let s := orWrite bus s 17 0x7100
  let s := orWrite bus s 16 0x96b2
  let s := orWrite bus s 18 0x0000
  let s := orWrite bus s 17 0x345f
  let s := orWrite bus s 16 0x96b4
  let s := orWrite bus s 18 0x0000
  let s := orWrite bus s 17 0xf7df
  let s := orWrite bus s 16 0x8fd4
  let s := orWrite bus s 18 0x0000
  let s := orWrite bus s 17 0xf3df
  let s := orWrite bus s 16 0x8fd2
  let s := orWrite bus s 18 0x000e
  let s := orWrite bus s 17 0x2b00
  let s := orWrite bus s 16 0x8fb0
  let s := orWrite bus s 18 0x000b
  let s := orWrite bus s 17 0x05a0
  let s := orWrite bus s 16 0x8fe0
  let s := orWrite bus s 18 0x0000
  let s := orWrite bus s 17 0x00ba
  let s := orWrite bus s 16 0x8fe2
  let s := orWrite bus s 18 0x0000
  let s := orWrite bus s 17 0x4689
  let s := orWrite bus s 16 0x8f92
  let s := orWrite bus s 18 0x0060
  let s := orWrite bus s 17 0x0980
  let s := orWrite bus s 16 0x8f90
  let s := orWrite bus s MII_VSC82X4_EXT_PAGE_ACCESS MII_VSC8574_EXT_TEST
  let s := orWrite bus s 8 0x0012
  let s := orWrite bus s MII_VSC82X4_EXT_PAGE_ACCESS MII_VSC8574_EXT_MAIN
  let s := orWrite bus s 22 0x3200
  s

/-- Embedding of `vsc8574_reva_phy_fixup` (the `printk` has no effect on the bus). -/
def vsc8574_reva_phy_fixup (bus : Bus) (t : Trace) : Int × Trace :=
  let err : Int := 0
  let (r, t) := vsc8574_led_mode bus t
  let err := Int.lor err r
  let (r, t) := vsc8574_reva_tune bus t
  let err := Int.lor err r
  (err, t)

/-- Embedding of `vsc8574_revb_phy_fixup`. -/
def vsc8574_revb_phy_fixup (bus : Bus) (t : Trace) : Int × Trace :=
  let err : Int := 0
  let (r, t) := vsc8574_led_mode bus t
  let err := Int.lor err r
  (err, t)

/-- One registered fix-up: `phy_register_fixup_for_uid(phy_uid, phy_uid_mask, run)`. -/
structure PhyFixup where
  phy_uid : Nat
  phy_uid_mask : Nat
  run : Bus → Trace → Int × Trace

/-- The fix-up registrations made by `vsc82xx_init`, in order. -/
def vsc82xx_init : List PhyFixup :=
  [ ⟨PHY_ID_VSC8574_REV_A, PHY_ID_VSC8574_MASK, vsc8574_reva_phy_fixup⟩,
    ⟨PHY_ID_VSC8574_REV_B, PHY_ID_VSC8574_MASK, vsc8574_revb_phy_fixup⟩ ]

/-- Modelled from the spec: the identifier/mask matching rule of fix-up
dispatch (the PHY core that holds it is not among the sources): an entry
matches a device when identifier and pattern agree on the bits of the mask. -/
def phy_needs_fixup (phy_id : Nat) (fixup : PhyFixup) : Bool :=
  (phy_id &&& fixup.phy_uid_mask) == (fixup.phy_uid &&& fixup.phy_uid_mask)

/-- Modelled from the spec: the Revision Fixup Engine `apply_fixup` (the PHY
core that dispatches registered fix-ups is not among the sources).  Dispatch is
by identifier-mask match against the fixed table: the sequence of the matching
entry is applied; when no entry matches nothing is run and the result is
success. -/
def apply_fixup (table : List PhyFixup) (phydev : PhyDevice) (bus : Bus) (t : Trace) :
    Int × Trace :=
  match table.find? (phy_needs_fixup phydev.phy_id) with
  | some fixup => fixup.run bus t
  | none => (0, t)

/-! ## Vocabulary for the statements -/

/-- The (register, value) pairs written by `vsc8574_led_mode`, in order. -/
def led_mode_writes : List (Nat × Nat) :=
  [
    (MII_VSC82X4_EXT_PAGE_ACCESS, MII_VSC8574_EXT_MAIN), (29, 0x800a), (30, 0x040f)
  ]

/-- The (register, value) pairs written by `vsc8574_reva_tune`, in order. -/
def reva_tune_writes : List (Nat × Nat) :=
  [
    (MII_VSC82X4_EXT_PAGE_ACCESS, MII_VSC8574_EXT_MAIN), (22, 0x3201), (24, 0x2040),
    (MII_VSC82X4_EXT_PAGE_ACCESS, MII_VSC8574_EXT_2), (16, 0x02f0), (MII_VSC82X4_EXT_PAGE_ACCESS, MII_VSC8574_EXT_TEST),
    (20, 0x0140), (9, 0x180c), (8, 0x8012),
    (MII_VSC82X4_EXT_PAGE_ACCESS, MII_VSC8574_EXT_TR), (18, 0x0000), (17, 0x0011),
    (16, 0x96a0), (18, 0x0000), (17, 0x7100),
    (16, 0x96a2), (18, 0x00d2), (17, 0x547f),
    (16, 0x968c), (18, 0x00f0), (17, 0xf00d),
    (16, 0x96b0), (18, 0x0000), (17, 0x7100),
    (16, 0x96b2), (18, 0x0000), (17, 0x345f),
    (16, 0x96b4), (18, 0x0000), (17, 0xf7df),
    (16, 0x8fd4), (18, 0x0000), (17, 0xf3df),
    (16, 0x8fd2), (18, 0x000e), (17, 0x2b00),
    (16, 0x8fb0), (18, 0x000b), (17, 0x05a0),
    (16, 0x8fe0), (18, 0x0000), (17, 0x00ba),
    (16, 0x8fe2), (18, 0x0000), (17, 0x4689),
    (16, 0x8f92), (18, 0x0060), (17, 0x0980),
    (16, 0x8f90), (MII_VSC82X4_EXT_PAGE_ACCESS, MII_VSC8574_EXT_TEST), (8, 0x0012),
    (MII_VSC82X4_EXT_PAGE_ACCESS, MII_VSC8574_EXT_MAIN), (22, 0x3200)
  ]

/-- A list of (register, value) pairs as bus operations. -/
def asWrites (ws : List (Nat × Nat)) : Trace :=
  ws.map (fun w => BusOp.write w.1 w.2)

/-- The values the bus returns to a run of writes issued after trace `t`. -/
def writeResults (bus : Bus) : Trace → List (Nat × Nat) → List Int
  | _, [] => []
  | t, w :: ws => bus.write t w.1 w.2 :: writeResults bus (t ++ [BusOp.write w.1 w.2]) ws

/-- The error code of the earliest failing operation (0 when none fails). -/
def firstError : List Int → Int
  | [] => 0
  | r :: rs => if r < 0 then r else firstError rs

/-- Bitwise or of a list of return values, starting from 0. -/
def orAll (rs : List Int) : Int :=
  rs.foldl Int.lor 0

/-- A run of `err |= phy_write(phydev, reg, val);` statements, one per pair. -/
def orWrites (bus : Bus) (ws : List (Nat × Nat)) (s : Int × Trace) : Int × Trace :=
  ws.foldl (fun s w => orWrite bus s w.1 w.2) s

/-- The four fix-up routines of the driver. -/
inductive FixupSeq where
  | led_mode
  | reva_tune
  | reva_phy_fixup
  | revb_phy_fixup
  deriving DecidableEq, Repr

/-- The routine a name stands for. -/
def FixupSeq.run : FixupSeq → Bus → Trace → Int × Trace
  | .led_mode => vsc8574_led_mode
  | .reva_tune => vsc8574_reva_tune
  | .reva_phy_fixup => vsc8574_reva_phy_fixup
  | .revb_phy_fixup => vsc8574_revb_phy_fixup

/-- The writes of a routine in program order. -/
def FixupSeq.writes : FixupSeq → List (Nat × Nat)
  | .led_mode => led_mode_writes
  | .reva_tune => reva_tune_writes
  | .reva_phy_fixup => led_mode_writes ++ reva_tune_writes
  | .revb_phy_fixup => led_mode_writes

/-- A scripted bus: the operation issued after `k` earlier events returns the
`k`-th entry of the script, and 0 (success) beyond its end. -/
def scriptBus (script : List Int) : Bus where
  read := fun t _ => script.getD t.length 0
  write := fun t _ _ => script.getD t.length 0

/-- A device that answers the general-page command (register 18 reads 0x00F0)
but whose register 0 always reads with the reset bit 0x8000 set. -/
def resetStuckBus : Bus where
  read := fun _ reg => if reg = 0 then 0x8000 else 0x00F0
  write := fun _ _ _ => 0

/-- A library routine that writes one control register and leaves the device
structure alone; used to instantiate the parameters of `vsc82x4_config_aneg`. -/
def genphyStub (reg val : Nat) : GenphyOp :=
  fun phydev bus t => ((phy_write bus t reg val).1, (phy_write bus t reg val).2, phydev)

/-- A device with the given identifier, bound to the VSC8574 entry, forced
100 Mb/s, interrupts disabled. -/
def sampleDevice (phy_id : Nat) : PhyDevice where
  phy_id := phy_id
  drv_phy_id := PHY_ID_VSC8574
  interrupts := PHY_INTERRUPT_DISABLED
  autoneg := AUTONEG_DISABLE
  speed := SPEED_100
  duplex := 0

/-- The four writes of `vsc82x4_config_autocross_enable` that precede the page
restore: the page select, then the three tuning writes, in program order. -/
def crossover_writes : List (Nat × Nat) :=
  [ (MII_VSC82X4_EXT_PAGE_ACCESS, 0x52b5),
    (MII_VSC82X4_EXT_PAGE_18E, 0x0012),
    (MII_VSC82X4_EXT_PAGE_17E, 0x2803),
    (MII_VSC82X4_EXT_PAGE_16E, 0x87fa) ]

/-- The page register after one more event: a write to the page-select
register 0x1f replaces the value, every other event leaves it. -/
def pageStep (p : Option Nat) : BusOp → Option Nat
  | BusOp.write reg val => if reg = MII_VSC82X4_EXT_PAGE_ACCESS then some val else p
  | _ => p

/-- The value carried by the last write to the page-select register 0x1f in a
trace; `none` when the trace has no such write. -/
def lastPageWrite (t : Trace) : Option Nat :=
  t.foldl pageStep none

/-- The page selected after a trace on a device whose writes all take effect,
starting from page `p`. -/
def selectedPage (p : Nat) (t : Trace) : Nat :=
  (t.foldl pageStep (some p)).getD p

/-- The entries of a table that match an identifier. -/
def matchingFixups (table : List PhyFixup) (phy_id : Nat) : List PhyFixup :=
  table.filter (phy_needs_fixup phy_id)

/-! # Theorems -/

/-! ## Bitwise or of return codes -/

theorem ldiff_zero_right (n : Nat) : Nat.ldiff n 0 = n := by
  apply Nat.eq_of_testBit_eq
  intro i
  simp [Nat.testBit_ldiff]

theorem lor_zero_left (x : Int) : Int.lor 0 x = x := by
  cases x with
  | ofNat n => show ((0 ||| n : Nat) : Int) = n; simp
  | negSucc n => show Int.negSucc (Nat.ldiff n 0) = Int.negSucc n; rw [ldiff_zero_right]

theorem lor_zero_right (x : Int) : Int.lor x 0 = x := by
  cases x with
  | ofNat n => show ((n ||| 0 : Nat) : Int) = n; simp
  | negSucc n => show Int.negSucc (Nat.ldiff n 0) = Int.negSucc n; rw [ldiff_zero_right]

theorem lor_self (x : Int) : Int.lor x x = x := by
  cases x with
  | ofNat n => show ((n ||| n : Nat) : Int) = n; simp
  | negSucc n => show Int.negSucc (n &&& n) = Int.negSucc n; simp

theorem lor_neg_iff (x y : Int) : Int.lor x y < 0 ↔ x < 0 ∨ y < 0 := by
  cases x <;> cases y <;> simp [Int.lor, Int.negSucc_lt_zero]
  omega

theorem lor_assoc (x y z : Int) : Int.lor (Int.lor x y) z = Int.lor x (Int.lor y z) := by
  cases x <;> cases y <;> cases z <;> simp only [Int.lor, Int.ofNat_eq_coe] <;>
    (congr 1; apply Nat.eq_of_testBit_eq; intro i
     simp only [Nat.testBit_ldiff, Nat.testBit_lor, Nat.testBit_land]
     cases Nat.testBit _ i <;> cases Nat.testBit _ i <;> cases Nat.testBit _ i <;> rfl)

theorem foldl_lor_eq (a : Int) (rs : List Int) :
    rs.foldl Int.lor a = Int.lor a (orAll rs) := by
  induction rs generalizing a with
  | nil => simp [orAll, lor_zero_right]
  | cons r rs ih =>
    simp only [orAll, List.foldl_cons]
    rw [ih (Int.lor a r), ih (Int.lor 0 r), lor_zero_left, lor_assoc]

theorem orAll_nil : orAll [] = 0 := rfl

theorem orAll_cons (r : Int) (rs : List Int) : orAll (r :: rs) = Int.lor r (orAll rs) := by
  show (r :: rs).foldl Int.lor 0 = _
  rw [List.foldl_cons, lor_zero_left, foldl_lor_eq]

theorem orAll_append (rs qs : List Int) : orAll (rs ++ qs) = Int.lor (orAll rs) (orAll qs) := by
  show (rs ++ qs).foldl Int.lor 0 = _
  rw [List.foldl_append, foldl_lor_eq]
  rfl

theorem orAll_neg_iff (rs : List Int) : orAll rs < 0 ↔ ∃ r ∈ rs, r < 0 := by
  induction rs with
  | nil => simp [orAll_nil]
  | cons r rs ih => simp [orAll_cons, lor_neg_iff, ih]

theorem firstError_zero_or_mem (rs : List Int) : firstError rs = 0 ∨ firstError rs ∈ rs := by
  induction rs with
  | nil => exact Or.inl rfl
  | cons r rs ih =>
    unfold firstError
    split
    · exact Or.inr (List.mem_cons_self _ _)
    · rcases ih with h | h
      · exact Or.inl h
      · exact Or.inr (List.mem_cons_of_mem _ h)

theorem orAll_same_code (e : Int) (rs : List Int) (h : ∀ r ∈ rs, r = 0 ∨ r = e) :
    orAll rs = 0 ∨ orAll rs = e := by
  induction rs with
  | nil => exact Or.inl rfl
  | cons r rs ih =>
    rw [orAll_cons]
    have hr := h r (List.mem_cons_self _ _)
    have hrs := ih (fun q hq => h q (List.mem_cons_of_mem _ hq))
    rcases hr with hr | hr <;> rcases hrs with hrs | hrs <;>
      simp [hr, hrs, lor_zero_left, lor_zero_right, lor_self]

theorem orAll_same_code_mem (e : Int) (rs : List Int) (h : ∀ r ∈ rs, r = 0 ∨ r = e)
    (hm : e ∈ rs) : orAll rs = e := by
  induction rs with
  | nil => simp at hm
  | cons r rs ih =>
    rw [orAll_cons]
    have hr := h r (List.mem_cons_self _ _)
    have hall : ∀ q ∈ rs, q = 0 ∨ q = e := fun q hq => h q (List.mem_cons_of_mem _ hq)
    rcases List.mem_cons.mp hm with hm | hm
    · rcases orAll_same_code e rs hall with hrs | hrs <;>
        simp [← hm, hrs, lor_zero_right, lor_self]
    · rw [ih hall hm]
      rcases hr with hr | hr <;> simp [hr, lor_zero_left, lor_self]

theorem orAll_eq_firstError (rs : List Int)
    (h : ∀ r ∈ rs, r = 0 ∨ r = firstError rs) : orAll rs = firstError rs := by
  rcases firstError_zero_or_mem rs with h0 | hm
  · rw [h0] at h ⊢
    rcases orAll_same_code 0 rs h with h1 | h1 <;> exact h1
  · exact orAll_same_code_mem _ rs h hm

/-! ## Runs of accumulated writes -/

theorem orWrites_nil (bus : Bus) (s : Int × Trace) : orWrites bus [] s = s := rfl

theorem orWrites_cons (bus : Bus) (w : Nat × Nat) (ws : List (Nat × Nat)) (s : Int × Trace) :
    orWrites bus (w :: ws) s = orWrites bus ws (orWrite bus s w.1 w.2) := rfl

theorem orWrites_snd (bus : Bus) (ws : List (Nat × Nat)) (s : Int × Trace) :
    (orWrites bus ws s).2 = s.2 ++ asWrites ws := by
  induction ws generalizing s with
  | nil => simp [orWrites_nil, asWrites]
  | cons w ws ih =>
    rw [orWrites_cons, ih]
    simp [orWrite, phy_write, asWrites]

theorem orWrites_fst (bus : Bus) (ws : List (Nat × Nat)) (s : Int × Trace) :
    (orWrites bus ws s).1 = Int.lor s.1 (orAll (writeResults bus s.2 ws)) := by
  induction ws generalizing s with
  | nil => simp [orWrites_nil, writeResults, orAll_nil, lor_zero_right]
  | cons w ws ih =>
    rw [orWrites_cons, ih]
    simp [orWrite, phy_write, writeResults, orAll_cons, lor_assoc]

theorem writeResults_append (bus : Bus) (t : Trace) (ws vs : List (Nat × Nat)) :
    writeResults bus t (ws ++ vs) =
      writeResults bus t ws ++ writeResults bus (t ++ asWrites ws) vs := by
  induction ws generalizing t with
  | nil => simp [writeResults, asWrites]
  | cons w ws ih => simp [writeResults, ih, asWrites]

theorem vsc8574_led_mode_eq (bus : Bus) (t : Trace) :
    vsc8574_led_mode bus t = orWrites bus led_mode_writes (0, t) := rfl

theorem vsc8574_reva_tune_eq (bus : Bus) (t : Trace) :
    vsc8574_reva_tune bus t = orWrites bus reva_tune_writes (0, t) := rfl

theorem FixupSeq.run_snd (s : FixupSeq) (bus : Bus) (t : Trace) :
    (s.run bus t).2 = t ++ asWrites s.writes := by
  cases s
  · simp [FixupSeq.run, FixupSeq.writes, vsc8574_led_mode_eq, orWrites_snd]
  · simp [FixupSeq.run, FixupSeq.writes, vsc8574_reva_tune_eq, orWrites_snd]
  · simp [FixupSeq.run, FixupSeq.writes, vsc8574_reva_phy_fixup, vsc8574_led_mode_eq,
      vsc8574_reva_tune_eq, orWrites_snd, asWrites]
  · simp [FixupSeq.run, FixupSeq.writes, vsc8574_revb_phy_fixup, vsc8574_led_mode_eq,
      orWrites_snd]

theorem FixupSeq.run_fst (s : FixupSeq) (bus : Bus) (t : Trace) :
    (s.run bus t).1 = orAll (writeResults bus t s.writes) := by
  cases s
  · simp [FixupSeq.run, FixupSeq.writes, vsc8574_led_mode_eq, orWrites_fst, lor_zero_left]
  · simp [FixupSeq.run, FixupSeq.writes, vsc8574_reva_tune_eq, orWrites_fst, lor_zero_left]
  · simp [FixupSeq.run, FixupSeq.writes, vsc8574_reva_phy_fixup, vsc8574_led_mode_eq,
      vsc8574_reva_tune_eq, orWrites_fst, orWrites_snd, lor_zero_left, writeResults_append,
      orAll_append]
  · simp [FixupSeq.run, FixupSeq.writes, vsc8574_revb_phy_fixup, vsc8574_led_mode_eq,
      orWrites_fst, lor_zero_left]

/-! ## The polling loops of the start-up configuration -/

theorem startup_wait_not_busy_stuck (bus : Bus) (reg : Nat)
    (h : ∀ t, Int.land (bus.read t reg) 0x8000 ≠ 0) (fuel : Nat) (t : Trace) :
    startup_wait_not_busy bus reg fuel t = none := by
  induction fuel generalizing t with
  | zero => rfl
  | succ n ih => simp [startup_wait_not_busy, phy_read, h, ih]

theorem startup_wait_not_busy_ready (bus : Bus) (reg : Nat) (fuel : Nat) (t : Trace)
    (h : Int.land (bus.read t reg) 0x8000 = 0) :
    startup_wait_not_busy bus reg (fuel + 1) t = some (t ++ [BusOp.read reg]) := by
  simp [startup_wait_not_busy, phy_read, h]

theorem startup_wait_command_stuck (bus : Bus) (h : ∀ t, bus.read t 18 ≠ 0x00F0)
    (fuel : Nat) (t : Trace) : startup_wait_command bus fuel t = none := by
  induction fuel generalizing t with
  | zero => rfl
  | succ n ih => simp [startup_wait_command, phy_read, mdelay, h, ih]

theorem startup_wait_command_ready (bus : Bus) (fuel : Nat) (t : Trace)
    (h : bus.read (t ++ [BusOp.mdelay 40]) 18 = 0x00F0) :
    startup_wait_command bus (fuel + 1) t =
      some (t ++ [BusOp.mdelay 40, BusOp.read 18]) := by
  simp [startup_wait_command, phy_read, mdelay, h]

/-- On a device that is never busy (every read returns 0x00F0) the start-up
configuration returns as soon as each loop may run once: nine writes, three
polls, one delay. -/
theorem startup_cfg_returns_on_ready_device (fuel : Nat) (t : Trace) :
    vsc8574_startup_cfg (fuel + 1) (constBus 0x00F0) t =
      some (0, t ++ [BusOp.write 0x1f 0x0010, BusOp.read 18, BusOp.write 18 0x80F0,
        BusOp.mdelay 40, BusOp.read 18, BusOp.write 0x1f 0x0000, BusOp.write 0 0x9140,
        BusOp.read 0, BusOp.write 0x1f 0x0003, BusOp.write 16 0x0180,
        BusOp.write 0x1f 0x0000, BusOp.write 0 0x1140]) := by
  have hb : Int.land (0x00F0 : Int) 0x8000 = 0 := by decide
  have h0 : Int.lor 0 0 = 0 := by decide
  simp [vsc8574_startup_cfg, startup_wait_not_busy, startup_wait_command, orWrite, phy_write,
    phy_read, mdelay, constBus, hb, h0, MII_VSC82X4_EXT_PAGE_ACCESS, MII_VSC8574_EXT_GENERAL,
    MII_VSC8574_EXT_MAIN, MII_VSC8574_EXT_3]

/-! ## Fix-up dispatch -/

theorem mask_rev_a : PHY_ID_VSC8574_REV_A &&& PHY_ID_VSC8574_MASK = 0x000704a0 := by decide

theorem mask_rev_b : PHY_ID_VSC8574_REV_B &&& PHY_ID_VSC8574_MASK = 0x000704a1 := by decide

theorem apply_fixup_rev_a (phydev : PhyDevice) (bus : Bus) (t : Trace)
    (h : phydev.phy_id &&& 0x000ffff1 = 0x000704a0) :
    apply_fixup vsc82xx_init phydev bus t = vsc8574_reva_phy_fixup bus t := by
  have hm : phy_needs_fixup phydev.phy_id
      ⟨PHY_ID_VSC8574_REV_A, PHY_ID_VSC8574_MASK, vsc8574_reva_phy_fixup⟩ = true := by
    show (phydev.phy_id &&& PHY_ID_VSC8574_MASK ==
      PHY_ID_VSC8574_REV_A &&& PHY_ID_VSC8574_MASK) = true
    rw [mask_rev_a, beq_iff_eq]
    exact h
  simp only [apply_fixup, vsc82xx_init, List.find?, hm]

theorem apply_fixup_rev_b (phydev : PhyDevice) (bus : Bus) (t : Trace)
    (h : phydev.phy_id &&& 0x000ffff1 = 0x000704a1) :
    apply_fixup vsc82xx_init phydev bus t = vsc8574_revb_phy_fixup bus t := by
  have hmA : phy_needs_fixup phydev.phy_id
      ⟨PHY_ID_VSC8574_REV_A, PHY_ID_VSC8574_MASK, vsc8574_reva_phy_fixup⟩ = false := by
    show (phydev.phy_id &&& PHY_ID_VSC8574_MASK ==
      PHY_ID_VSC8574_REV_A &&& PHY_ID_VSC8574_MASK) = false
    rw [mask_rev_a, beq_eq_false_iff_ne]
    show phydev.phy_id &&& 0x000ffff1 ≠ 0x000704a0
    rw [h]
    decide
  have hmB : phy_needs_fixup phydev.phy_id
      ⟨PHY_ID_VSC8574_REV_B, PHY_ID_VSC8574_MASK, vsc8574_revb_phy_fixup⟩ = true := by
    show (phydev.phy_id &&& PHY_ID_VSC8574_MASK ==
      PHY_ID_VSC8574_REV_B &&& PHY_ID_VSC8574_MASK) = true
    rw [mask_rev_b, beq_iff_eq]
    exact h
  simp only [apply_fixup, vsc82xx_init, List.find?, hmA, hmB]

theorem apply_fixup_no_match (phydev : PhyDevice)
    (hA : phydev.phy_id &&& 0x000ffff1 ≠ 0x000704a0)
    (hB : phydev.phy_id &&& 0x000ffff1 ≠ 0x000704a1) :
    vsc82xx_init.find? (phy_needs_fixup phydev.phy_id) = none := by
  have hmA : phy_needs_fixup phydev.phy_id
      ⟨PHY_ID_VSC8574_REV_A, PHY_ID_VSC8574_MASK, vsc8574_reva_phy_fixup⟩ = false := by
    show (phydev.phy_id &&& PHY_ID_VSC8574_MASK ==
      PHY_ID_VSC8574_REV_A &&& PHY_ID_VSC8574_MASK) = false
    rw [mask_rev_a, beq_eq_false_iff_ne]
    exact hA
  have hmB : phy_needs_fixup phydev.phy_id
      ⟨PHY_ID_VSC8574_REV_B, PHY_ID_VSC8574_MASK, vsc8574_revb_phy_fixup⟩ = false := by
    show (phydev.phy_id &&& PHY_ID_VSC8574_MASK ==
      PHY_ID_VSC8574_REV_B &&& PHY_ID_VSC8574_MASK) = false
    rw [mask_rev_b, beq_eq_false_iff_ne]
    exact hB
  simp only [vsc82xx_init, List.find?, hmA, hmB]

theorem orAll_okBus (u : Trace) (ws : List (Nat × Nat)) :
    orAll (writeResults okBus u ws) = 0 := by
  induction ws generalizing u with
  | nil => rfl
  | cons w ws ih =>
    rw [writeResults, orAll_cons, ih]
    rfl

/-! ## Interrupt handling and forced-mode crossover -/

/-- C1: in forced mode at 10 or 100 Mb/s, when the page select and the first
two tuning writes succeed and the third tuning write (register 0x10, value
0x87fa) fails with `e`, the routine issues exactly the five writes, the page
restore (0x1f := 0) being the last bus operation, and returns `e`; nothing is
assumed about the result of the page-restore write. -/
theorem autocross_third_write_fails (phydev : PhyDevice) (bus : Bus) (t : Trace) (e : Int)
    (hauto : phydev.autoneg ≠ AUTONEG_ENABLE)
    (hspeed : phydev.speed = 10 ∨ phydev.speed = 100)
    (h0 : 0 ≤ bus.write t 0x1f 0x52b5)
    (h1 : 0 ≤ bus.write (t ++ [BusOp.write 0x1f 0x52b5]) 0x12 0x0012)
    (h2 : 0 ≤ bus.write (t ++ [BusOp.write 0x1f 0x52b5, BusOp.write 0x12 0x0012]) 0x11 0x2803)
    (h3 : bus.write (t ++ [BusOp.write 0x1f 0x52b5, BusOp.write 0x12 0x0012,
            BusOp.write 0x11 0x2803]) 0x10 0x87fa = e)
    (he : e < 0) :
    vsc82x4_config_autocross_enable phydev bus t =
        (e, t ++ [BusOp.write 0x1f 0x52b5, BusOp.write 0x12 0x0012,
                  BusOp.write 0x11 0x2803, BusOp.write 0x10 0x87fa,
                  BusOp.write 0x1f 0x0000]) ∧
      (vsc82x4_config_autocross_enable phydev bus t).2.getLast? =
        some (BusOp.write 0x1f 0x0000) := by
  have hs : ¬ phydev.speed > SPEED_100 := by
    rcases hspeed with h | h <;> simp [h, SPEED_100]
  have hret : ¬ (0 ≤ e) := not_le.mpr he
  have key : vsc82x4_config_autocross_enable phydev bus t =
      (e, t ++ [BusOp.write 0x1f 0x52b5, BusOp.write 0x12 0x0012,
                BusOp.write 0x11 0x2803, BusOp.write 0x10 0x87fa,
                BusOp.write 0x1f 0x0000]) := by
    simp [vsc82x4_config_autocross_enable, phy_write, hauto, hs, h0, h1, h2, h3, hret,
      MII_VSC82X4_EXT_PAGE_ACCESS, MII_VSC82X4_EXT_PAGE_18E, MII_VSC82X4_EXT_PAGE_17E,
      MII_VSC82X4_EXT_PAGE_16E]
  refine ⟨key, ?_⟩
  rw [key]
  simp [List.getLast?_append]

/-- Witness for C1: a forced 100 Mb/s device on a bus whose fourth write fails
with -5 and whose page-restore write fails with -110. -/
theorem autocross_third_write_fails_witness :
    vsc82x4_config_autocross_enable (sampleDevice 0x000fc620) (scriptBus [0, 0, 0, -5, -110]) [] =
        (-5, [BusOp.write 0x1f 0x52b5, BusOp.write 0x12 0x0012,
              BusOp.write 0x11 0x2803, BusOp.write 0x10 0x87fa,
              BusOp.write 0x1f 0x0000]) ∧
      (scriptBus [0, 0, 0, -5, -110]).write
        [BusOp.write 0x1f 0x52b5, BusOp.write 0x12 0x0012,
          BusOp.write 0x11 0x2803, BusOp.write 0x10 0x87fa] 0x1f 0 = -110 :=
  ⟨(autocross_third_write_fails (sampleDevice 0x000fc620) (scriptBus [0, 0, 0, -5, -110]) [] (-5)
      (by decide) (by decide) (by decide) (by decide) (by decide) (by decide) (by decide)).1,
    by decide⟩

/-- C2: when auto-negotiation is enabled, or the speed is above 100 Mb/s
(whatever the duplex), `vsc82x4_config_aneg` is exactly `genphy_config_aneg`:
same result, same bus operations, same device update; the crossover routine
itself, called in such a mode, issues no operation at all. -/
theorem config_aneg_no_crossover (genphy_setup_forced genphy_config_aneg : GenphyOp)
    (phydev : PhyDevice) (bus : Bus) (t : Trace)
    (h : phydev.autoneg = AUTONEG_ENABLE ∨ phydev.speed > 100) :
    vsc82x4_config_aneg genphy_setup_forced genphy_config_aneg phydev bus t =
        genphy_config_aneg phydev bus t ∧
      vsc82x4_config_autocross_enable phydev bus t = (0, t) := by
  have hc : ¬ (phydev.autoneg ≠ AUTONEG_ENABLE ∧ phydev.speed ≤ SPEED_100) := by
    rcases h with h | h
    · simp [h]
    · simp only [SPEED_100, not_and, not_le]
      exact fun _ => h
  have ha : phydev.autoneg = AUTONEG_ENABLE ∨ phydev.speed > SPEED_100 := h
  constructor
  · unfold vsc82x4_config_aneg
    rw [if_neg hc]
  · unfold vsc82x4_config_autocross_enable
    rw [if_pos ha]

/-- Witness for C2: a forced 1000 Mb/s request; the library routine writes the
control register once and nothing else reaches the bus. -/
theorem config_aneg_no_crossover_witness :
    vsc82x4_config_aneg (genphyStub 0 0x0140) (genphyStub 0 0x1200)
        { sampleDevice 0x000fc620 with speed := SPEED_1000 } okBus [] =
      (0, [BusOp.write 0 0x1200], { sampleDevice 0x000fc620 with speed := SPEED_1000 }) :=
  (config_aneg_no_crossover (genphyStub 0 0x0140) (genphyStub 0 0x1200)
      { sampleDevice 0x000fc620 with speed := SPEED_1000 } okBus []
      (Or.inr (by decide))).1.trans (by decide)

/-- C3: with interrupts disabled `vsc824x_ack_interrupt` touches the bus not at
all (the trace is unchanged: no read, no write) and returns 0, on every bus;
with interrupts enabled it issues exactly one read, of the status register
0x1a, and returns that read's error or 0. -/
theorem ack_interrupt_reads_only_when_enabled (phydev : PhyDevice) (bus : Bus) (t : Trace) :
    (phydev.interrupts ≠ PHY_INTERRUPT_ENABLED →
        vsc824x_ack_interrupt phydev bus t = (0, t)) ∧
      (phydev.interrupts = PHY_INTERRUPT_ENABLED →
        vsc824x_ack_interrupt phydev bus t =
          (if bus.read t 0x1a < 0 then bus.read t 0x1a else 0, t ++ [BusOp.read 0x1a])) := by
  constructor
  · intro h
    simp [vsc824x_ack_interrupt, h]
  · intro h
    simp [vsc824x_ack_interrupt, h, phy_read, MII_VSC8244_ISTAT]

/-- Witness for C3: interrupts disabled on a bus whose every operation would
fail, and interrupts enabled on the same bus. -/
theorem ack_interrupt_reads_only_when_enabled_witness :
    vsc824x_ack_interrupt (sampleDevice 0x000704a0) (scriptBus [-5]) [] = (0, []) ∧
      vsc824x_ack_interrupt
          { sampleDevice 0x000704a0 with interrupts := PHY_INTERRUPT_ENABLED }
          (scriptBus [-5]) [] = (-5, [BusOp.read 0x1a]) :=
  ⟨(ack_interrupt_reads_only_when_enabled (sampleDevice 0x000704a0) (scriptBus [-5]) []).1
      (by decide),
    ((ack_interrupt_reads_only_when_enabled
        { sampleDevice 0x000704a0 with interrupts := PHY_INTERRUPT_ENABLED }
        (scriptBus [-5]) []).2 (by decide)).trans (by decide)⟩

/-- C4: with interrupts enabled `vsc82xx_config_intr` performs exactly one bus
operation, a write to the mask register 0x19, of 0xf000 when the bound driver
identifier is 0x000fc620, 0x000fc6c0, 0x00070670 or 0x000704a0 and of 0xa000
for every other identifier, and returns the result of that write. -/
theorem config_intr_enable_writes_mask_once (phydev : PhyDevice) (bus : Bus) (t : Trace)
    (h : phydev.interrupts = PHY_INTERRUPT_ENABLED) :
    vsc82xx_config_intr phydev bus t =
      (bus.write t 0x19
          (if phydev.drv_phy_id ∈ [0x000fc620, 0x000fc6c0, 0x00070670, 0x000704a0]
            then 0xf000 else 0xa000),
        t ++ [BusOp.write 0x19
          (if phydev.drv_phy_id ∈ [0x000fc620, 0x000fc6c0, 0x00070670, 0x000704a0]
            then 0xf000 else 0xa000)]) := by
  simp [vsc82xx_config_intr, h, phy_write, MII_VSC8244_IMASK, MII_VSC8244_IMASK_MASK,
    MII_VSC8221_IMASK_MASK, PHY_ID_VSC8234, PHY_ID_VSC8244, PHY_ID_VSC8514, PHY_ID_VSC8574]

/-- Witness for C4: the VSC8662 entry (not in the wide set) gets the narrow
mask, written once. -/
theorem config_intr_enable_writes_mask_once_witness :
    vsc82xx_config_intr
        { sampleDevice 0x00070660 with
          drv_phy_id := PHY_ID_VSC8662, interrupts := PHY_INTERRUPT_ENABLED }
        okBus [] = (0, [BusOp.write 0x19 0xa000]) :=
  (config_intr_enable_writes_mask_once
      { sampleDevice 0x00070660 with
        drv_phy_id := PHY_ID_VSC8662, interrupts := PHY_INTERRUPT_ENABLED }
      okBus [] (by decide)).trans (by decide)

/-- C5: when interrupts are being disabled `vsc82xx_config_intr` first reads the
status register 0x1a; if the read fails its error is returned and the read is
the only bus operation (no write to the mask register 0x19); if the read
succeeds the zero mask is written to 0x19 next and the result is the result
of that write. -/
theorem config_intr_disable_reads_status_first (phydev : PhyDevice) (bus : Bus) (t : Trace)
    (h : phydev.interrupts ≠ PHY_INTERRUPT_ENABLED) :
    (bus.read t 0x1a < 0 →
        vsc82xx_config_intr phydev bus t = (bus.read t 0x1a, t ++ [BusOp.read 0x1a])) ∧
      (0 ≤ bus.read t 0x1a →
        vsc82xx_config_intr phydev bus t =
          (bus.write (t ++ [BusOp.read 0x1a]) 0x19 0,
            t ++ [BusOp.read 0x1a, BusOp.write 0x19 0])) := by
  constructor
  · intro hr
    simp [vsc82xx_config_intr, h, phy_read, MII_VSC8244_ISTAT, hr]
  · intro hr
    simp [vsc82xx_config_intr, h, phy_read, phy_write, MII_VSC8244_ISTAT, MII_VSC8244_IMASK,
      not_lt.mpr hr]

/-- Witness for C5: a failing status read (-5) stops the routine; a succeeding
one is followed by the zero-mask write, whose failure (-110) is returned. -/
theorem config_intr_disable_reads_status_first_witness :
    vsc82xx_config_intr (sampleDevice 0x000704a0) (scriptBus [-5]) [] =
        (-5, [BusOp.read 0x1a]) ∧
      vsc82xx_config_intr (sampleDevice 0x000704a0) (scriptBus [0x2000, -110]) [] =
        (-110, [BusOp.read 0x1a, BusOp.write 0x19 0]) :=
  ⟨((config_intr_disable_reads_status_first (sampleDevice 0x000704a0) (scriptBus [-5]) []
        (by decide)).1 (by decide)).trans (by decide),
    ((config_intr_disable_reads_status_first (sampleDevice 0x000704a0)
        (scriptBus [0x2000, -110]) [] (by decide)).2 (by decide)).trans (by decide)⟩

/-! ## Start-up configuration -/

/-- C6 (the code does not do this): on a device whose busy bit never clears the
three polling loops of `vsc8574_startup_cfg` have no bound.  Whatever number of
iterations is allowed, the routine has not returned: when register 18 always
reads 0x8000 (first loop), when register 18 never reads back 0x00F0 (second
loop), and when register 0 always reads with bit 0x8000 set (third loop). -/
theorem startup_cfg_never_returns_on_stuck_device (fuel : Nat) (t : Trace) :
    vsc8574_startup_cfg fuel (constBus 0x8000) t = none ∧
      vsc8574_startup_cfg fuel (constBus 0) t = none ∧
      vsc8574_startup_cfg fuel resetStuckBus t = none := by
  refine ⟨?_, ?_, ?_⟩
  · have h : ∀ u, Int.land ((constBus 0x8000).read u 18) 0x8000 ≠ 0 := by
      intro u
      show Int.land (0x8000 : Int) 0x8000 ≠ 0
      decide
    simp [vsc8574_startup_cfg, startup_wait_not_busy_stuck _ _ h]
  · have h : ∀ u, (constBus 0).read u 18 ≠ 0x00F0 := by
      intro u
      show (0 : Int) ≠ 0x00F0
      decide
    unfold vsc8574_startup_cfg
    simp only [startup_wait_command_stuck _ h]
    split <;> rfl
  · have h : ∀ u, Int.land (resetStuckBus.read u 0) 0x8000 ≠ 0 := by
      intro u
      show Int.land (0x8000 : Int) 0x8000 ≠ 0
      decide
    cases fuel with
    | zero => rfl
    | succ n =>
      have h2 : ∀ u, resetStuckBus.read u 18 = 0x00F0 := fun _ => rfl
      have h1 : ∀ u, Int.land (resetStuckBus.read u 18) 0x8000 = 0 := by
        intro u
        rw [h2]
        decide
      unfold vsc8574_startup_cfg
      simp only [startup_wait_not_busy_ready _ _ _ _ (h1 _),
        startup_wait_command_ready _ _ _ (h2 _), startup_wait_not_busy_stuck _ _ h]

/-! ## Revision fix-ups -/

/-- C7 as stated fails: on a bus whose first write fails with -110 (ETIMEDOUT)
and whose second fails with -5 (EIO), `vsc8574_led_mode` returns -5, not the
code -110 of the earliest failing write. -/
theorem led_mode_returns_or_not_first_error :
    writeResults (scriptBus [-110, -5]) [] led_mode_writes = [-110, -5, 0] ∧
      (vsc8574_led_mode (scriptBus [-110, -5]) []).1 = -5 ∧
      (vsc8574_led_mode (scriptBus [-110, -5]) []).1 ≠
        firstError (writeResults (scriptBus [-110, -5]) [] led_mode_writes) := by
  have hr : writeResults (scriptBus [-110, -5]) [] led_mode_writes = [-110, -5, 0] := by decide
  have hl : Int.lor (-110) (-5) = -5 := by decide
  have hv : (vsc8574_led_mode (scriptBus [-110, -5]) []).1 = -5 := by
    rw [vsc8574_led_mode_eq, orWrites_fst]
    show Int.lor 0 (orAll (writeResults (scriptBus [-110, -5]) [] led_mode_writes)) = -5
    rw [hr, lor_zero_left, orAll_cons, orAll_cons, orAll_cons, orAll_nil, lor_zero_right,
      lor_zero_right, hl]
  refine ⟨hr, hv, ?_⟩
  rw [hv, hr]
  decide

/-- C7 (amended): every fix-up routine returns the bitwise or of the results
of all its writes.  The value is negative exactly when some write returned a
negative value, and it equals the code of the earliest failing write (0 when
none fails) whenever every write returns either 0 or that one code. -/
theorem fixup_returns_or_of_write_results (s : FixupSeq) (bus : Bus) (t : Trace) :
    (s.run bus t).1 = orAll (writeResults bus t s.writes) ∧
      ((s.run bus t).1 < 0 ↔ ∃ r ∈ writeResults bus t s.writes, r < 0) ∧
      ((∀ r ∈ writeResults bus t s.writes,
          r = 0 ∨ r = firstError (writeResults bus t s.writes)) →
        (s.run bus t).1 = firstError (writeResults bus t s.writes)) := by
  refine ⟨s.run_fst bus t, ?_, ?_⟩
  · rw [s.run_fst bus t]
    exact orAll_neg_iff _
  · intro h
    rw [s.run_fst bus t]
    exact orAll_eq_firstError _ h

/-- Witness for C7 (amended): the revision A fix-up on a bus whose second and
fifth writes both fail with -5 returns -5. -/
theorem fixup_returns_or_of_write_results_witness :
    (vsc8574_reva_phy_fixup (scriptBus [0, -5, 0, 0, -5]) []).1 = -5 ∧
      firstError (writeResults (scriptBus [0, -5, 0, 0, -5]) []
        (led_mode_writes ++ reva_tune_writes)) = -5 :=
  ⟨((fixup_returns_or_of_write_results FixupSeq.reva_phy_fixup
        (scriptBus [0, -5, 0, 0, -5]) []).2.2 (by decide)).trans (by decide),
    by decide⟩

/-- C8: whatever the bus does, the revision A fix-up issues the same 56 writes
(the 3 of the LED-mode sequence, then the 53 of the analog-tuning sequence), in
the same order and with the same values as on an always-succeeding bus, and
the revision B fix-up the same 3 writes; failures neither shorten nor alter
the sequence. -/
theorem fixup_sequence_unaffected_by_failures (bus : Bus) (t : Trace) :
    (vsc8574_reva_phy_fixup bus t).2 = t ++ (vsc8574_reva_phy_fixup okBus []).2 ∧
      (vsc8574_revb_phy_fixup bus t).2 = t ++ (vsc8574_revb_phy_fixup okBus []).2 ∧
      (vsc8574_reva_phy_fixup okBus []).2 =
        (vsc8574_led_mode okBus []).2 ++ (vsc8574_reva_tune okBus []).2 ∧
      (vsc8574_revb_phy_fixup okBus []).2 = (vsc8574_led_mode okBus []).2 ∧
      (vsc8574_led_mode okBus []).2 = asWrites led_mode_writes ∧
      (vsc8574_reva_tune okBus []).2 = asWrites reva_tune_writes ∧
      (asWrites led_mode_writes).length = 3 ∧
      (asWrites reva_tune_writes).length = 53 ∧
      (vsc8574_reva_phy_fixup okBus []).2.length = 56 ∧
      writesOf (vsc8574_reva_phy_fixup okBus []).2 = led_mode_writes ++ reva_tune_writes := by
  have ha := fun b u => FixupSeq.run_snd FixupSeq.reva_phy_fixup b u
  have hb := fun b u => FixupSeq.run_snd FixupSeq.revb_phy_fixup b u
  have hl := fun b u => FixupSeq.run_snd FixupSeq.led_mode b u
  have ht := fun b u => FixupSeq.run_snd FixupSeq.reva_tune b u
  simp only [FixupSeq.run, FixupSeq.writes] at ha hb hl ht
  refine ⟨?_, ?_, ?_, ?_, ?_, ?_, by decide, by decide, by decide, by decide⟩
  · rw [ha bus t, ha okBus []]; rfl
  · rw [hb bus t, hb okBus []]; rfl
  · rw [ha okBus [], hl okBus [], ht okBus []]; simp [asWrites]
  · rw [hb okBus [], hl okBus []]
  · rw [hl okBus []]; rfl
  · rw [ht okBus []]; rfl

/-- C9: for identifier 0x000704a0 (revision A) on the always-succeeding bus the
fix-up engine writes the LED-mode sequence (0x1f := 0, 29 := 0x800a,
30 := 0x040f) followed by the analog-tuning sequence of `vsc8574_reva_tune`,
and returns 0; for 0x000704a1 (revision B) it writes the LED-mode sequence
only, and returns 0. -/
theorem fixup_engine_trace_by_revision (phydev : PhyDevice) (t : Trace) :
    apply_fixup vsc82xx_init { phydev with phy_id := 0x000704a0 } okBus t =
        (0, t ++ ([BusOp.write 0x1f 0x0000, BusOp.write 29 0x800a, BusOp.write 30 0x040f] ++
          (vsc8574_reva_tune okBus []).2)) ∧
      apply_fixup vsc82xx_init { phydev with phy_id := 0x000704a1 } okBus t =
        (0, t ++ [BusOp.write 0x1f 0x0000, BusOp.write 29 0x800a, BusOp.write 30 0x040f]) ∧
      (vsc8574_led_mode okBus []).2 =
        [BusOp.write 0x1f 0x0000, BusOp.write 29 0x800a, BusOp.write 30 0x040f] ∧
      (vsc8574_reva_tune okBus []).2 = asWrites reva_tune_writes := by
  have hA : apply_fixup vsc82xx_init { phydev with phy_id := 0x000704a0 } okBus t =
      vsc8574_reva_phy_fixup okBus t :=
    apply_fixup_rev_a _ okBus t (by show (0x000704a0 &&& 0x000ffff1 : Nat) = _; decide)
  have hB : apply_fixup vsc82xx_init { phydev with phy_id := 0x000704a1 } okBus t =
      vsc8574_revb_phy_fixup okBus t :=
    apply_fixup_rev_b _ okBus t (by show (0x000704a1 &&& 0x000ffff1 : Nat) = _; decide)
  have h1 := fun s => FixupSeq.run_fst s okBus t
  have h2 := fun s u => FixupSeq.run_snd s okBus u
  have hz := orAll_okBus
  refine ⟨?_, ?_, by decide, ?_⟩
  · rw [hA]
    apply Prod.ext
    · exact (h1 FixupSeq.reva_phy_fixup).trans (hz _ _)
    · have := h2 FixupSeq.reva_phy_fixup t
      have ht := h2 FixupSeq.reva_tune []
      simp only [FixupSeq.run, FixupSeq.writes] at this ht
      rw [this, ht]
      simp [asWrites, led_mode_writes, MII_VSC82X4_EXT_PAGE_ACCESS, MII_VSC8574_EXT_MAIN]
  · rw [hB]
    apply Prod.ext
    · exact (h1 FixupSeq.revb_phy_fixup).trans (hz _ _)
    · have := h2 FixupSeq.revb_phy_fixup t
      simp only [FixupSeq.run, FixupSeq.writes] at this
      rw [this]
      simp [asWrites, led_mode_writes, MII_VSC82X4_EXT_PAGE_ACCESS, MII_VSC8574_EXT_MAIN]
  · have ht := h2 FixupSeq.reva_tune []
    simp only [FixupSeq.run, FixupSeq.writes] at ht
    rw [ht]; rfl

/-- C10: a device whose identifier matches neither registered fix-up entry,
that is (id & 0x000ffff1) is neither 0x000704a0 nor 0x000704a1, gets no fix-up
handler run: the dispatch returns 0 and the trace is unchanged (no write, no
read), on every bus. -/
theorem fixup_no_match_no_bus_writes (phydev : PhyDevice) (bus : Bus) (t : Trace)
    (hA : phydev.phy_id &&& 0x000ffff1 ≠ 0x000704a0)
    (hB : phydev.phy_id &&& 0x000ffff1 ≠ 0x000704a1) :
    apply_fixup vsc82xx_init phydev bus t = (0, t) ∧
      vsc82xx_init.find? (phy_needs_fixup phydev.phy_id) = none := by
  have hfind := apply_fixup_no_match phydev hA hB
  exact ⟨by simp [apply_fixup, hfind], hfind⟩

/-- Witness for C10: the VSC8234 identifier 0x000fc620 matches no fix-up entry. -/
theorem fixup_no_match_no_bus_writes_witness :
    apply_fixup vsc82xx_init (sampleDevice 0x000fc620) (scriptBus [-5]) [] = (0, []) :=
  (fixup_no_match_no_bus_writes (sampleDevice 0x000fc620) (scriptBus [-5]) []
    (by decide) (by decide)).1

/-! ## Invalid mode combination -/

/-- C11 as stated fails: with auto-negotiation enabled, or at 1000 Mb/s, the
crossover routine returns 0, which is success and not an error. -/
theorem autocross_invalid_mode_returns_success :
    vsc82x4_config_autocross_enable
        { sampleDevice 0x000fc620 with autoneg := AUTONEG_ENABLE } (scriptBus [-5]) [] = (0, []) ∧
      vsc82x4_config_autocross_enable
        { sampleDevice 0x000fc620 with speed := SPEED_1000 } (scriptBus [-5]) [] = (0, []) ∧
      ¬ (vsc82x4_config_autocross_enable
        { sampleDevice 0x000fc620 with speed := SPEED_1000 } (scriptBus [-5]) []).1 < 0 := by
  refine ⟨by decide, by decide, by decide⟩

/-- C11 (amended): a crossover enable requested with auto-negotiation enabled,
or at a speed above 100 Mb/s, issues no bus operation at all and returns 0
(success): the request is skipped, no error is reported. -/
theorem autocross_invalid_mode_is_skipped (phydev : PhyDevice) (bus : Bus) (t : Trace)
    (h : phydev.autoneg = AUTONEG_ENABLE ∨ phydev.speed > 100) :
    vsc82x4_config_autocross_enable phydev bus t = (0, t) ∧
      writesOf (vsc82x4_config_autocross_enable phydev bus t).2 = writesOf t := by
  have ha : phydev.autoneg = AUTONEG_ENABLE ∨ phydev.speed > SPEED_100 := h
  have key : vsc82x4_config_autocross_enable phydev bus t = (0, t) := by
    unfold vsc82x4_config_autocross_enable
    rw [if_pos ha]
  exact ⟨key, by rw [key]⟩

/-- Witness for C11 (amended): auto-negotiation enabled, on a bus whose first
operation would fail. -/
theorem autocross_invalid_mode_is_skipped_witness :
    vsc82x4_config_autocross_enable
        { sampleDevice 0x000fc620 with autoneg := AUTONEG_ENABLE } (scriptBus [-5])
        [BusOp.read 0x1a] = (0, [BusOp.read 0x1a]) :=
  (autocross_invalid_mode_is_skipped
    { sampleDevice 0x000fc620 with autoneg := AUTONEG_ENABLE } (scriptBus [-5])
    [BusOp.read 0x1a] (Or.inl (by decide))).1

/-! ## Unambiguous dispatch -/

theorem needs_fixup_rev_a_iff (id : Nat) (run : Bus → Trace → Int × Trace) :
    phy_needs_fixup id ⟨PHY_ID_VSC8574_REV_A, PHY_ID_VSC8574_MASK, run⟩ = true ↔
      id &&& 0x000ffff1 = 0x000704a0 := by
  show (id &&& PHY_ID_VSC8574_MASK == PHY_ID_VSC8574_REV_A &&& PHY_ID_VSC8574_MASK) = true ↔ _
  rw [mask_rev_a, beq_iff_eq]
  rfl

theorem needs_fixup_rev_b_iff (id : Nat) (run : Bus → Trace → Int × Trace) :
    phy_needs_fixup id ⟨PHY_ID_VSC8574_REV_B, PHY_ID_VSC8574_MASK, run⟩ = true ↔
      id &&& 0x000ffff1 = 0x000704a1 := by
  show (id &&& PHY_ID_VSC8574_MASK == PHY_ID_VSC8574_REV_B &&& PHY_ID_VSC8574_MASK) = true ↔ _
  rw [mask_rev_b, beq_iff_eq]
  rfl

theorem masked_id_of_driver_match (id : Nat) (h : id &&& 0x000ffff0 = 0x000704a0) :
    id &&& 0x000ffff1 = if id % 2 = 0 then 0x000704a0 else 0x000704a1 := by
  have hm : (0x000ffff1 : Nat) = 0x000ffff0 ||| 1 := by decide
  rw [hm, Nat.and_or_distrib_left, h, Nat.and_one_is_mod]
  rcases Nat.mod_two_eq_zero_or_one id with h2 | h2 <;> rw [h2] <;> decide

theorem matchingFixups_cases (id : Nat) :
    matchingFixups vsc82xx_init id =
      if id &&& 0x000ffff1 = 0x000704a0 then
        [⟨PHY_ID_VSC8574_REV_A, PHY_ID_VSC8574_MASK, vsc8574_reva_phy_fixup⟩]
      else if id &&& 0x000ffff1 = 0x000704a1 then
        [⟨PHY_ID_VSC8574_REV_B, PHY_ID_VSC8574_MASK, vsc8574_revb_phy_fixup⟩]
      else [] := by
  by_cases hA : id &&& 0x000ffff1 = 0x000704a0
  · have hB : ¬ id &&& 0x000ffff1 = 0x000704a1 := by rw [hA]; decide
    have a1 := (needs_fixup_rev_a_iff id vsc8574_reva_phy_fixup).mpr hA
    have b0 := Bool.eq_false_iff.mpr (mt (needs_fixup_rev_b_iff id vsc8574_revb_phy_fixup).mp hB)
    simp only [matchingFixups, vsc82xx_init, List.filter, a1, b0, if_pos hA]
  · have a0 := Bool.eq_false_iff.mpr (mt (needs_fixup_rev_a_iff id vsc8574_reva_phy_fixup).mp hA)
    by_cases hB : id &&& 0x000ffff1 = 0x000704a1
    · have b1 := (needs_fixup_rev_b_iff id vsc8574_revb_phy_fixup).mpr hB
      simp only [matchingFixups, vsc82xx_init, List.filter, a0, b1, if_neg hA, if_pos hB]
    · have b0 :=
        Bool.eq_false_iff.mpr (mt (needs_fixup_rev_b_iff id vsc8574_revb_phy_fixup).mp hB)
      simp only [matchingFixups, vsc82xx_init, List.filter, a0, b0, if_neg hA, if_neg hB]

/-- C15: under the matching rule (id & mask) == (uid & mask) no identifier
matches both registered fix-up entries (at most one entry of the table
matches, for every identifier), and every identifier matched by the VSC8574
driver entry, (id & 0x000ffff0) == 0x000704a0, matches exactly one of them:
revision A (0x000704a0) when bit 0 is clear, revision B (0x000704a1) when bit
0 is set. -/
theorem fixup_dispatch_unambiguous (id : Nat) :
    (matchingFixups vsc82xx_init id).length ≤ 1 ∧
      ¬ (phy_needs_fixup id ⟨0x000704a0, 0x000ffff1, vsc8574_reva_phy_fixup⟩ = true ∧
          phy_needs_fixup id ⟨0x000704a1, 0x000ffff1, vsc8574_revb_phy_fixup⟩ = true) ∧
      (id &&& 0x000ffff0 = 0x000704a0 →
        (matchingFixups vsc82xx_init id).map PhyFixup.phy_uid =
            [if id % 2 = 0 then 0x000704a0 else 0x000704a1] ∧
          (phy_needs_fixup id ⟨0x000704a0, 0x000ffff1, vsc8574_reva_phy_fixup⟩ = true ↔
            id % 2 = 0) ∧
          (phy_needs_fixup id ⟨0x000704a1, 0x000ffff1, vsc8574_revb_phy_fixup⟩ = true ↔
            id % 2 = 1)) := by
  have hA := needs_fixup_rev_a_iff id vsc8574_reva_phy_fixup
  have hB := needs_fixup_rev_b_iff id vsc8574_revb_phy_fixup
  simp only [PHY_ID_VSC8574_REV_A, PHY_ID_VSC8574_REV_B, PHY_ID_VSC8574_MASK] at hA hB
  refine ⟨?_, ?_, ?_⟩
  · rw [matchingFixups_cases]
    split
    · simp
    · split <;> simp
  · rw [hA, hB]
    intro h
    have h2 := h.1.symm.trans h.2
    exact absurd h2 (by decide)
  · intro hd
    have hm := masked_id_of_driver_match id hd
    rw [hA, hB, matchingFixups_cases, hm]
    rcases Nat.mod_two_eq_zero_or_one id with h2 | h2
    · simp [h2, PHY_ID_VSC8574_REV_A]
    · simp [h2, PHY_ID_VSC8574_REV_B]

/-- Witness for C15: the identifiers 0x000704a0 and 0x000704a1 are matched by
the VSC8574 driver entry and select revision A and revision B, and 0x000fc620
selects nothing. -/
theorem fixup_dispatch_unambiguous_witness :
    (matchingFixups vsc82xx_init 0x000704a0).map PhyFixup.phy_uid = [0x000704a0] ∧
      (matchingFixups vsc82xx_init 0x000704a1).map PhyFixup.phy_uid = [0x000704a1] ∧
      (matchingFixups vsc82xx_init 0x000fc620).length = 0 :=
  ⟨((fixup_dispatch_unambiguous 0x000704a0).2.2 (by decide)).1,
    ((fixup_dispatch_unambiguous 0x000704a1).2.2 (by decide)).1,
    by decide⟩

/-! ## Forced-mode setup -/

theorem config_aneg_forced (genphy_setup_forced genphy_config_aneg : GenphyOp)
    (phydev : PhyDevice) (bus : Bus) (t : Trace)
    (hauto : phydev.autoneg ≠ AUTONEG_ENABLE) (hspeed : phydev.speed ≤ SPEED_100) :
    vsc82x4_config_aneg genphy_setup_forced genphy_config_aneg phydev bus t =
      if (genphy_setup_forced phydev bus t).1 < 0 then genphy_setup_forced phydev bus t
      else
        ((vsc82x4_config_autocross_enable (genphy_setup_forced phydev bus t).2.2 bus
            (genphy_setup_forced phydev bus t).2.1).1,
          (vsc82x4_config_autocross_enable (genphy_setup_forced phydev bus t).2.2 bus
            (genphy_setup_forced phydev bus t).2.1).2,
          (genphy_setup_forced phydev bus t).2.2) := by
  unfold vsc82x4_config_aneg
  rw [if_pos ⟨hauto, hspeed⟩]

theorem writeResults_crossover (bus : Bus) (t : Trace) :
    writeResults bus t crossover_writes =
      [bus.write t 0x1f 0x52b5,
        bus.write (t ++ [BusOp.write 0x1f 0x52b5]) 0x12 0x0012,
        bus.write (t ++ [BusOp.write 0x1f 0x52b5, BusOp.write 0x12 0x0012]) 0x11 0x2803,
        bus.write (t ++ [BusOp.write 0x1f 0x52b5, BusOp.write 0x12 0x0012,
          BusOp.write 0x11 0x2803]) 0x10 0x87fa] := by
  simp [writeResults, crossover_writes, MII_VSC82X4_EXT_PAGE_ACCESS, MII_VSC82X4_EXT_PAGE_18E,
    MII_VSC82X4_EXT_PAGE_17E, MII_VSC82X4_EXT_PAGE_16E]

theorem autocross_all_succeed (phydev : PhyDevice) (bus : Bus) (t : Trace)
    (hauto : phydev.autoneg ≠ AUTONEG_ENABLE) (hspeed : phydev.speed ≤ SPEED_100)
    (hok : ∀ i, i < 4 → 0 ≤ (writeResults bus t crossover_writes).getD i 0) :
    vsc82x4_config_autocross_enable phydev bus t =
      (bus.write (t ++ [BusOp.write 0x1f 0x52b5, BusOp.write 0x12 0x0012,
          BusOp.write 0x11 0x2803, BusOp.write 0x10 0x87fa]) 0x1f 0x0000,
        t ++ [BusOp.write 0x1f 0x52b5, BusOp.write 0x12 0x0012, BusOp.write 0x11 0x2803,
          BusOp.write 0x10 0x87fa, BusOp.write 0x1f 0x0000]) := by
  rw [writeResults_crossover] at hok
  have h0 := hok 0 (by decide)
  have h1 := hok 1 (by decide)
  have h2 := hok 2 (by decide)
  have h3 := hok 3 (by decide)
  simp only [List.getD_cons_zero, List.getD_cons_succ] at h0 h1 h2 h3
  have hs : ¬ phydev.speed > SPEED_100 := not_lt.mpr hspeed
  simp [vsc82x4_config_autocross_enable, phy_write, hauto, hs, h0, h1, h2, h3,
    MII_VSC82X4_EXT_PAGE_ACCESS, MII_VSC82X4_EXT_PAGE_18E, MII_VSC82X4_EXT_PAGE_17E,
    MII_VSC82X4_EXT_PAGE_16E]

theorem autocross_first_failure (phydev : PhyDevice) (bus : Bus) (t : Trace)
    (hauto : phydev.autoneg ≠ AUTONEG_ENABLE) (hspeed : phydev.speed ≤ SPEED_100)
    (k : Nat) (hk : k < 4) (e : Int) (he : e < 0)
    (hok : ∀ i, i < k → 0 ≤ (writeResults bus t crossover_writes).getD i 0)
    (hfail : (writeResults bus t crossover_writes).getD k 0 = e) :
    vsc82x4_config_autocross_enable phydev bus t =
      (e, t ++ asWrites (crossover_writes.take (k + 1)) ++ [BusOp.write 0x1f 0x0000]) := by
  rw [writeResults_crossover] at hok hfail
  have hs : ¬ phydev.speed > SPEED_100 := not_lt.mpr hspeed
  have hne : ¬ (0 ≤ e) := not_le.mpr he
  interval_cases k
  · simp only [List.getD_cons_zero] at hfail
    simp [vsc82x4_config_autocross_enable, phy_write, hauto, hs, hfail, hne, asWrites,
      crossover_writes, MII_VSC82X4_EXT_PAGE_ACCESS]
  · have h0 := hok 0 (by decide)
    simp only [List.getD_cons_zero, List.getD_cons_succ] at hfail h0
    simp [vsc82x4_config_autocross_enable, phy_write, hauto, hs, hfail, hne, h0, asWrites,
      crossover_writes, MII_VSC82X4_EXT_PAGE_ACCESS, MII_VSC82X4_EXT_PAGE_18E]
  · have h0 := hok 0 (by decide)
    have h1 := hok 1 (by decide)
    simp only [List.getD_cons_zero, List.getD_cons_succ] at hfail h0 h1
    simp [vsc82x4_config_autocross_enable, phy_write, hauto, hs, hfail, hne, h0, h1, asWrites,
      crossover_writes, MII_VSC82X4_EXT_PAGE_ACCESS, MII_VSC82X4_EXT_PAGE_18E,
      MII_VSC82X4_EXT_PAGE_17E]
  · have h0 := hok 0 (by decide)
    have h1 := hok 1 (by decide)
    have h2 := hok 2 (by decide)
    simp only [List.getD_cons_zero, List.getD_cons_succ] at hfail h0 h1 h2
    simp [vsc82x4_config_autocross_enable, phy_write, hauto, hs, hfail, hne, h0, h1, h2,
      asWrites, crossover_writes, MII_VSC82X4_EXT_PAGE_ACCESS, MII_VSC82X4_EXT_PAGE_18E,
      MII_VSC82X4_EXT_PAGE_17E, MII_VSC82X4_EXT_PAGE_16E]

/-- C13: in forced mode (auto-negotiation not enabled, speed at most 100 Mb/s),
when `genphy_setup_forced` succeeds (and leaves the mode fields of the device
as they are) and the page select and the three tuning writes succeed, as they
all do on an always-succeeding bus, `vsc82x4_config_aneg` performs
`genphy_setup_forced` and then exactly the five writes 0x1f := 0x52b5,
0x12 := 0x0012, 0x11 := 0x2803, 0x10 := 0x87fa, 0x1f := 0x0000, in this order;
the value returned is the result of the final page-restore write. -/
theorem config_aneg_forced_write_sequence (genphy_setup_forced genphy_config_aneg : GenphyOp)
    (phydev : PhyDevice) (bus : Bus) (t : Trace)
    (hauto : phydev.autoneg ≠ AUTONEG_ENABLE) (hspeed : phydev.speed ≤ 100)
    (hsetup : 0 ≤ (genphy_setup_forced phydev bus t).1)
    (hkeepA : (genphy_setup_forced phydev bus t).2.2.autoneg = phydev.autoneg)
    (hkeepS : (genphy_setup_forced phydev bus t).2.2.speed = phydev.speed)
    (hok : ∀ i, i < 4 →
      0 ≤ (writeResults bus (genphy_setup_forced phydev bus t).2.1 crossover_writes).getD i 0) :
    vsc82x4_config_aneg genphy_setup_forced genphy_config_aneg phydev bus t =
      (bus.write ((genphy_setup_forced phydev bus t).2.1 ++
          [BusOp.write 0x1f 0x52b5, BusOp.write 0x12 0x0012, BusOp.write 0x11 0x2803,
            BusOp.write 0x10 0x87fa]) 0x1f 0x0000,
        (genphy_setup_forced phydev bus t).2.1 ++
          [BusOp.write 0x1f 0x52b5, BusOp.write 0x12 0x0012, BusOp.write 0x11 0x2803,
            BusOp.write 0x10 0x87fa, BusOp.write 0x1f 0x0000],
        (genphy_setup_forced phydev bus t).2.2) := by
  have hs : phydev.speed ≤ SPEED_100 := hspeed
  rw [config_aneg_forced _ _ _ _ _ hauto hs, if_neg (not_lt.mpr hsetup),
    autocross_all_succeed _ bus _ (by rw [hkeepA]; exact hauto) (by rw [hkeepS]; exact hs) hok]

/-- Witness for C13: a forced 100 Mb/s request on the always-succeeding bus, and
on a bus where only the page-restore write fails (-110), which is reported. -/
theorem config_aneg_forced_write_sequence_witness :
    vsc82x4_config_aneg (genphyStub 0 0x2100) (genphyStub 0 0x1200)
        (sampleDevice 0x000fc620) okBus [] =
        (0, [BusOp.write 0 0x2100, BusOp.write 0x1f 0x52b5, BusOp.write 0x12 0x0012,
          BusOp.write 0x11 0x2803, BusOp.write 0x10 0x87fa, BusOp.write 0x1f 0x0000],
          sampleDevice 0x000fc620) ∧
      vsc82x4_config_aneg (genphyStub 0 0x2100) (genphyStub 0 0x1200)
        (sampleDevice 0x000fc620) (scriptBus [0, 0, 0, 0, 0, -110]) [] =
        (-110, [BusOp.write 0 0x2100, BusOp.write 0x1f 0x52b5, BusOp.write 0x12 0x0012,
          BusOp.write 0x11 0x2803, BusOp.write 0x10 0x87fa, BusOp.write 0x1f 0x0000],
          sampleDevice 0x000fc620) :=
  ⟨(config_aneg_forced_write_sequence (genphyStub 0 0x2100) (genphyStub 0 0x1200)
      (sampleDevice 0x000fc620) okBus [] (by decide) (by decide) (by decide) rfl rfl
      (by decide)).trans (by decide),
    (config_aneg_forced_write_sequence (genphyStub 0 0x2100) (genphyStub 0 0x1200)
      (sampleDevice 0x000fc620) (scriptBus [0, 0, 0, 0, 0, -110]) [] (by decide) (by decide)
      (by decide) rfl rfl (by decide)).trans (by decide)⟩

/-- C14: forced-mode setup is fail-fast.  In forced mode, if
`genphy_setup_forced` fails, `vsc82x4_config_aneg` returns its error and issues
nothing after it (no crossover write, not even the page select).  If it
succeeds (leaving the mode fields of the device as they are) and the k-th of
the four writes (page select, then the three tuning writes; k counted from 0)
is the first to fail, with error `e`, then the writes up to and including the
failing one are followed by exactly one page-restore write 0x1f := 0x0000,
none of the later tuning writes is issued, and `e` is returned. -/
theorem config_aneg_forced_fail_fast (genphy_setup_forced genphy_config_aneg : GenphyOp)
    (phydev : PhyDevice) (bus : Bus) (t : Trace)
    (hauto : phydev.autoneg ≠ AUTONEG_ENABLE) (hspeed : phydev.speed ≤ 100) :
    ((genphy_setup_forced phydev bus t).1 < 0 →
        vsc82x4_config_aneg genphy_setup_forced genphy_config_aneg phydev bus t =
          genphy_setup_forced phydev bus t) ∧
      (0 ≤ (genphy_setup_forced phydev bus t).1 →
        (genphy_setup_forced phydev bus t).2.2.autoneg = phydev.autoneg →
        (genphy_setup_forced phydev bus t).2.2.speed = phydev.speed →
        ∀ (k : Nat) (e : Int), k < 4 → e < 0 →
          (∀ i, i < k →
            0 ≤ (writeResults bus (genphy_setup_forced phydev bus t).2.1
              crossover_writes).getD i 0) →
          (writeResults bus (genphy_setup_forced phydev bus t).2.1
              crossover_writes).getD k 0 = e →
          vsc82x4_config_aneg genphy_setup_forced genphy_config_aneg phydev bus t =
            (e,
              (genphy_setup_forced phydev bus t).2.1 ++
                asWrites (crossover_writes.take (k + 1)) ++ [BusOp.write 0x1f 0x0000],
              (genphy_setup_forced phydev bus t).2.2)) := by
  have hs : phydev.speed ≤ SPEED_100 := hspeed
  constructor
  · intro hfail
    rw [config_aneg_forced _ _ _ _ _ hauto hs, if_pos hfail]
  · intro hsetup hkeepA hkeepS k e hk he hok hfail
    rw [config_aneg_forced _ _ _ _ _ hauto hs, if_neg (not_lt.mpr hsetup),
      autocross_first_failure _ bus _ (by rw [hkeepA]; exact hauto)
        (by rw [hkeepS]; exact hs) k hk e he hok hfail]

/-- Witness for C14: a failing `genphy_setup_forced` (-5) ends the request after
its own write; a failing second tuning write (-5) is followed by the page
restore only, the third tuning write is not issued. -/
theorem config_aneg_forced_fail_fast_witness :
    vsc82x4_config_aneg (genphyStub 0 0x2100) (genphyStub 0 0x1200)
        (sampleDevice 0x000fc620) (scriptBus [-5]) [] =
        (-5, [BusOp.write 0 0x2100], sampleDevice 0x000fc620) ∧
      vsc82x4_config_aneg (genphyStub 0 0x2100) (genphyStub 0 0x1200)
        (sampleDevice 0x000fc620) (scriptBus [0, 0, 0, -5, -110]) [] =
        (-5, [BusOp.write 0 0x2100, BusOp.write 0x1f 0x52b5, BusOp.write 0x12 0x0012,
          BusOp.write 0x11 0x2803, BusOp.write 0x1f 0x0000], sampleDevice 0x000fc620) :=
  ⟨((config_aneg_forced_fail_fast (genphyStub 0 0x2100) (genphyStub 0 0x1200)
      (sampleDevice 0x000fc620) (scriptBus [-5]) [] (by decide) (by decide)).1
      (by decide)).trans (by decide),
    ((config_aneg_forced_fail_fast (genphyStub 0 0x2100) (genphyStub 0 0x1200)
      (sampleDevice 0x000fc620) (scriptBus [0, 0, 0, -5, -110]) [] (by decide) (by decide)).2
      (by decide) rfl rfl 2 (-5) (by decide) (by decide) (by decide) (by decide)).trans
      (by decide)⟩

/-! ## Page restore -/

theorem foldl_pageStep (acc : Option Nat) (ops : Trace) :
    ops.foldl pageStep acc =
      match lastPageWrite ops with
      | some v => some v
      | none => acc := by
  induction ops generalizing acc with
  | nil => rfl
  | cons op ops ih =>
    unfold lastPageWrite
    rw [List.foldl_cons, List.foldl_cons, ih (pageStep acc op), ih (pageStep none op)]
    cases hl : lastPageWrite ops with
    | some v => rfl
    | none =>
      cases op with
      | read reg => rfl
      | mdelay ms => rfl
      | write reg val =>
        by_cases hr : reg = MII_VSC82X4_EXT_PAGE_ACCESS <;> simp [pageStep, hr]

theorem lastPageWrite_append_of_some (pre ops : Trace) (v : Nat)
    (h : lastPageWrite ops = some v) : lastPageWrite (pre ++ ops) = some v := by
  unfold lastPageWrite
  rw [List.foldl_append, foldl_pageStep, h]

theorem selectedPage_of_lastPageWrite (p : Nat) (t ops : Trace) (v : Nat)
    (h : lastPageWrite ops = some v) : selectedPage p (t ++ ops) = v := by
  unfold selectedPage
  rw [List.foldl_append, foldl_pageStep, h]
  rfl

theorem lastPageWrite_fixup (s : FixupSeq) : lastPageWrite (asWrites s.writes) = some 0 := by
  cases s <;> decide

theorem startup_wait_not_busy_extends (bus : Bus) (reg fuel : Nat) (t u : Trace)
    (h : startup_wait_not_busy bus reg fuel t = some u) : ∃ ops, u = t ++ ops := by
  induction fuel generalizing t with
  | zero => simp [startup_wait_not_busy] at h
  | succ n ih =>
    simp only [startup_wait_not_busy, phy_read, mdelay] at h
    split at h
    · obtain ⟨ops, hops⟩ := ih _ h
      exact ⟨[BusOp.read reg, BusOp.mdelay 1] ++ ops, by simp [hops]⟩
    · exact ⟨[BusOp.read reg], by simpa using h.symm⟩

theorem startup_wait_command_extends (bus : Bus) (fuel : Nat) (t u : Trace)
    (h : startup_wait_command bus fuel t = some u) : ∃ ops, u = t ++ ops := by
  induction fuel generalizing t with
  | zero => simp [startup_wait_command] at h
  | succ n ih =>
    simp only [startup_wait_command, phy_read, mdelay] at h
    split at h
    · exact ⟨[BusOp.mdelay 40, BusOp.read 18], by simpa using h.symm⟩
    · obtain ⟨ops, hops⟩ := ih _ h
      exact ⟨[BusOp.mdelay 40, BusOp.read 18] ++ ops, by simp [hops]⟩

theorem startup_cfg_trace (fuel : Nat) (bus : Bus) (t u : Trace) (r : Int)
    (h : vsc8574_startup_cfg fuel bus t = some (r, u)) :
    ∃ pre, u = t ++ (pre ++ [BusOp.write 0x1f 0x0003, BusOp.write 16 0x0180,
      BusOp.write 0x1f 0x0000, BusOp.write 0 0x1140]) := by
  unfold vsc8574_startup_cfg at h
  simp only [orWrite, phy_write] at h
  split at h
  · exact absurd h (by simp)
  · rename_i t1 h1
    split at h
    · exact absurd h (by simp)
    · rename_i t2 h2
      split at h
      · exact absurd h (by simp)
      · rename_i t3 h3
        obtain ⟨o1, ho1⟩ := startup_wait_not_busy_extends _ _ _ _ _ h1
        obtain ⟨o2, ho2⟩ := startup_wait_command_extends _ _ _ _ h2
        obtain ⟨o3, ho3⟩ := startup_wait_not_busy_extends _ _ _ _ _ h3
        simp only [Option.some.injEq, Prod.mk.injEq] at h
        refine ⟨[BusOp.write 0x1f 0x0010] ++ o1 ++ [BusOp.write 18 0x80F0] ++ o2 ++
          [BusOp.write 0x1f 0x0000, BusOp.write 0 0x9140] ++ o3, ?_⟩
        rw [← h.2, ho3, ho2, ho1]
        simp [MII_VSC82X4_EXT_PAGE_ACCESS, MII_VSC8574_EXT_GENERAL, MII_VSC8574_EXT_MAIN,
          MII_VSC8574_EXT_3]

theorem autocross_trace_ends_with_restore (phydev : PhyDevice) (bus : Bus) (t : Trace)
    (hauto : phydev.autoneg ≠ AUTONEG_ENABLE) (hspeed : phydev.speed ≤ SPEED_100) :
    ∃ pre, (vsc82x4_config_autocross_enable phydev bus t).2 =
      t ++ (pre ++ [BusOp.write 0x1f 0x0000]) := by
  by_cases h0 : 0 ≤ (writeResults bus t crossover_writes).getD 0 0
  · by_cases h1 : 0 ≤ (writeResults bus t crossover_writes).getD 1 0
    · by_cases h2 : 0 ≤ (writeResults bus t crossover_writes).getD 2 0
      · by_cases h3 : 0 ≤ (writeResults bus t crossover_writes).getD 3 0
        · have hok : ∀ i, i < 4 → 0 ≤ (writeResults bus t crossover_writes).getD i 0 := by
            intro i hi
            interval_cases i <;> assumption
          rw [autocross_all_succeed phydev bus t hauto hspeed hok]
          exact ⟨[BusOp.write 0x1f 0x52b5, BusOp.write 0x12 0x0012, BusOp.write 0x11 0x2803,
            BusOp.write 0x10 0x87fa], by simp⟩
        · have hok : ∀ i, i < 3 → 0 ≤ (writeResults bus t crossover_writes).getD i 0 := by
            intro i hi
            interval_cases i <;> assumption
          rw [autocross_first_failure phydev bus t hauto hspeed 3 (by decide) _
            (not_le.mp h3) hok rfl]
          exact ⟨asWrites (crossover_writes.take 4), by simp⟩
      · have hok : ∀ i, i < 2 → 0 ≤ (writeResults bus t crossover_writes).getD i 0 := by
          intro i hi
          interval_cases i <;> assumption
        rw [autocross_first_failure phydev bus t hauto hspeed 2 (by decide) _
          (not_le.mp h2) hok rfl]
        exact ⟨asWrites (crossover_writes.take 3), by simp⟩
    · have hok : ∀ i, i < 1 → 0 ≤ (writeResults bus t crossover_writes).getD i 0 := by
        intro i hi
        interval_cases i; assumption
      rw [autocross_first_failure phydev bus t hauto hspeed 1 (by decide) _
        (not_le.mp h1) hok rfl]
      exact ⟨asWrites (crossover_writes.take 2), by simp⟩
  · have hok : ∀ i, i < 0 → 0 ≤ (writeResults bus t crossover_writes).getD i 0 := by
      intro i hi
      exact absurd hi (Nat.not_lt_zero i)
    rw [autocross_first_failure phydev bus t hauto hspeed 0 (by decide) _
      (not_le.mp h0) hok rfl]
    exact ⟨asWrites (crossover_writes.take 1), by simp⟩

/-- C12: every driver sequence that switches the register page leaves it at
MAIN.  For every bus and starting trace, among the operations issued by
`vsc8574_led_mode`, `vsc8574_reva_tune`, `vsc8574_reva_phy_fixup`,
`vsc8574_revb_phy_fixup`, by `vsc8574_startup_cfg` when it returns, and by
`vsc82x4_config_autocross_enable` when it issues anything, the last write to
the page-select register 0x1f carries 0x0000; so on a device whose writes all
take effect the page selected afterwards is MAIN (0), whatever it was before. -/
theorem page_restored_to_main (bus : Bus) (t : Trace) :
    (∀ s : FixupSeq,
        lastPageWrite ((s.run bus t).2.drop t.length) = some 0x0000 ∧
          ∀ p, selectedPage p (s.run bus t).2 = 0x0000) ∧
      (∀ (fuel : Nat) (r : Int) (u : Trace),
        vsc8574_startup_cfg fuel bus t = some (r, u) →
          lastPageWrite (u.drop t.length) = some 0x0000 ∧ ∀ p, selectedPage p u = 0x0000) ∧
      (∀ phydev : PhyDevice,
        (vsc82x4_config_autocross_enable phydev bus t).2 ≠ t →
          lastPageWrite ((vsc82x4_config_autocross_enable phydev bus t).2.drop t.length) =
              some 0x0000 ∧
            ∀ p, selectedPage p (vsc82x4_config_autocross_enable phydev bus t).2 = 0x0000) := by
  refine ⟨?_, ?_, ?_⟩
  · intro s
    rw [s.run_snd bus t, List.drop_left]
    exact ⟨lastPageWrite_fixup s,
      fun p => selectedPage_of_lastPageWrite p t _ 0 (lastPageWrite_fixup s)⟩
  · intro fuel r u h
    obtain ⟨pre, hpre⟩ := startup_cfg_trace fuel bus t u r h
    have hl : lastPageWrite (pre ++ [BusOp.write 0x1f 0x0003, BusOp.write 16 0x0180,
        BusOp.write 0x1f 0x0000, BusOp.write 0 0x1140]) = some 0 :=
      lastPageWrite_append_of_some pre _ 0 (by decide)
    rw [hpre, List.drop_left]
    exact ⟨hl, fun p => selectedPage_of_lastPageWrite p t _ 0 hl⟩
  · intro phydev hne
    by_cases hmode : phydev.autoneg = AUTONEG_ENABLE ∨ phydev.speed > SPEED_100
    · exfalso
      apply hne
      unfold vsc82x4_config_autocross_enable
      rw [if_pos hmode]
    · have hauto : phydev.autoneg ≠ AUTONEG_ENABLE := fun h => hmode (Or.inl h)
      have hspeed : phydev.speed ≤ SPEED_100 := not_lt.mp (fun h => hmode (Or.inr h))
      obtain ⟨pre, hpre⟩ := autocross_trace_ends_with_restore phydev bus t hauto hspeed
      have hl : lastPageWrite (pre ++ [BusOp.write 0x1f 0x0000]) = some 0 :=
        lastPageWrite_append_of_some pre _ 0 (by decide)
      rw [hpre, List.drop_left]
      exact ⟨hl, fun p => selectedPage_of_lastPageWrite p t _ 0 hl⟩

/-- Witness for C12: the start-up configuration on a ready device (it returns,
after selecting pages 0x10, 0, 3 and 0 again), and the crossover routine on a
bus whose page-select write fails: both end on a page-select write of 0. -/
theorem page_restored_to_main_witness :
    vsc8574_startup_cfg 1 (constBus 0x00F0) [] =
        some (0, [BusOp.write 0x1f 0x0010, BusOp.read 18, BusOp.write 18 0x80F0,
          BusOp.mdelay 40, BusOp.read 18, BusOp.write 0x1f 0x0000, BusOp.write 0 0x9140,
          BusOp.read 0, BusOp.write 0x1f 0x0003, BusOp.write 16 0x0180,
          BusOp.write 0x1f 0x0000, BusOp.write 0 0x1140]) ∧
      selectedPage 0x52b5 [BusOp.write 0x1f 0x0010, BusOp.read 18, BusOp.write 18 0x80F0,
          BusOp.mdelay 40, BusOp.read 18, BusOp.write 0x1f 0x0000, BusOp.write 0 0x9140,
          BusOp.read 0, BusOp.write 0x1f 0x0003, BusOp.write 16 0x0180,
          BusOp.write 0x1f 0x0000, BusOp.write 0 0x1140] = 0 ∧
      (vsc82x4_config_autocross_enable (sampleDevice 0x000fc620) (scriptBus [-5]) []).2 =
        [BusOp.write 0x1f 0x52b5, BusOp.write 0x1f 0x0000] ∧
      lastPageWrite
        ((vsc82x4_config_autocross_enable (sampleDevice 0x000fc620) (scriptBus [-5]) []).2.drop
          0) = some 0 :=
  ⟨startup_cfg_returns_on_ready_device 0 [],
    (((page_restored_to_main (constBus 0x00F0) []).2.1 1 0 _
      (startup_cfg_returns_on_ready_device 0 [])).2 0x52b5),
    by decide,
    (((page_restored_to_main (scriptBus [-5]) []).2.2 (sampleDevice 0x000fc620)
      (by decide)).1)⟩

end Vitesse
